import Mathlib

/-!
Verification of the FoodLang AI request-governance and retrieval core
(`backend/main.py`) against its natural-language specification.

The Python code is shallowly embedded: pure helpers become Lean functions,
the mutable module state (`rate_limit_storage`, `state.cost_tracker`,
`HealthMonitor` buffers and cooldowns) becomes explicit state passing, wall
clock values (`time.time()`, `datetime.utcnow()`) become rational arguments,
Python floats become rationals, and calls to the external OpenAI backend
become function parameters returning `Option`.
-/

namespace FoodLang

/-! ## Rate limiter (`RateLimiter.is_allowed`, main.py lines 211-233)

A key's entry of `rate_limit_storage` is the list of admitted timestamps in
arrival order.  One call of `is_allowed` trims the stale prefix, rejects
without recording when the trimmed window is full, and otherwise appends
`now` and accepts. -/

def is_allowed (limit : ℕ) (window : ℚ) (stored : List ℚ) (now : ℚ) :
    Bool × List ℚ :=
  let trimmed := stored.dropWhile (fun t => decide (t < now - window))
  if limit ≤ trimmed.length then (false, trimmed)
  else (true, trimmed ++ [now])

/-- Run a sequence of admission checks for one key, returning the list of
results and the final stored timestamps. -/
def runChecks (limit : ℕ) (window : ℚ) (stored : List ℚ) :
    List ℚ → List Bool × List ℚ
  | [] => ([], stored)
  | t :: ts =>
    let r := is_allowed limit window stored t
    let rest := runChecks limit window r.2 ts
    (r.1 :: rest.1, rest.2)

/-! ## Health monitor buffers (`HealthMonitor`, main.py lines 873-941) -/

structure ErrorSample where
  timestamp : ℚ
  errType : String
  endpoint : String
  details : String
  deriving DecidableEq

structure LatencySample where
  timestamp : ℚ
  endpoint : String
  response_time : ℚ
  deriving DecidableEq

/-- The two bounded buffers `recent_errors` and `recent_response_times`
(`deque(maxlen=100)`); the claims quantify over arbitrary buffer states. -/
structure MonitorBuffers where
  recent_errors : List ErrorSample
  recent_response_times : List LatencySample
  deriving DecidableEq

/-- `HealthMonitor.get_error_rate` (main.py lines 912-928): errors newer than
`now - window_minutes` divided by the TOTAL size of the latency buffer
(`total_requests = len(self.recent_response_times)` is not time-filtered). -/
def get_error_rate (m : MonitorBuffers) (now window_minutes : ℚ) : ℚ :=
  if m.recent_errors = [] then 0
  else
    let cutoff := now - window_minutes * 60
    let windowed := m.recent_errors.filter (fun e => decide (cutoff < e.timestamp))
    let total := m.recent_response_times.length
    if total = 0 then 0
    else (windowed.length : ℚ) / (total : ℚ)

/-- `HealthMonitor.get_avg_response_time` (main.py lines 930-941). -/
def get_avg_response_time (m : MonitorBuffers) (now window_minutes : ℚ) : ℚ :=
  if m.recent_response_times = [] then 0
  else
    let cutoff := now - window_minutes * 60
    let windowed := (m.recent_response_times.filter
      (fun s => decide (cutoff < s.timestamp))).map (fun s => s.response_time)
    if windowed = [] then 0
    else windowed.sum / (windowed.length : ℚ)

/-- The error-rate formula as the claim words it (both counts filtered by the
same cutoff); declared only to be compared with `get_error_rate`. -/
def errorRateClaimed (m : MonitorBuffers) (now window_minutes : ℚ) : ℚ :=
  let cutoff := now - window_minutes * 60
  let errs := (m.recent_errors.filter (fun e => decide (cutoff < e.timestamp))).length
  let lats := (m.recent_response_times.filter (fun s => decide (cutoff < s.timestamp))).length
  if errs = 0 ∨ lats = 0 then 0 else (errs : ℚ) / (lats : ℚ)

/-- Amended reading of the error-rate estimator: windowed error count divided
by the total (unfiltered) latency-buffer population. -/
def errorRateAmended (m : MonitorBuffers) (now window_minutes : ℚ) : ℚ :=
  let windowed := (m.recent_errors.filter (fun e => decide (now - window_minutes * 60 < e.timestamp))).length
  let total := m.recent_response_times.length
  if m.recent_errors = [] ∨ total = 0 then 0 else (windowed : ℚ) / (total : ℚ)

/-- Buffer state refuting the claimed error-rate formula: one error inside the
window, two latency samples of which only one is inside the window. -/
def cexMonitor : MonitorBuffers :=
  { recent_errors := [⟨10, "server_error", "/api/translate", "HTTP 500"⟩]
    recent_response_times := [⟨-1000, "/api/translate", 1⟩, ⟨10, "/api/translate", 1⟩] }

/-! ## Cost ledger (`state.cost_tracker`, `track_*_cost`, `calculate_costs`,
main.py lines 315-320, 429-438, 481-494)

Token counting (`count_tokens`, tiktoken) is external; it is a parameter
`countTokens : String → ℕ`. -/

structure CostTracker where
  embedding_tokens : ℕ
  completion_tokens : ℕ
  embedding_requests : ℕ
  completion_requests : ℕ
  deriving DecidableEq

/-- `track_embedding_cost` (main.py lines 429-433). -/
def track_embedding_cost (countTokens : String → ℕ) (st : CostTracker)
    (text : String) : CostTracker :=
  { st with
    embedding_tokens := st.embedding_tokens + countTokens text
    embedding_requests := st.embedding_requests + 1 }

/-- `track_completion_cost` (main.py lines 435-438). -/
def track_completion_cost (st : CostTracker) (tokens : ℕ) : CostTracker :=
  { st with
    completion_tokens := st.completion_tokens + tokens
    completion_requests := st.completion_requests + 1 }

/-- Python `round(x, 6)` modelled on rationals (exact ties round as Mathlib
`round`; nothing proved here depends on the tie direction). -/
def round6 (q : ℚ) : ℚ := ((round (q * 1000000) : ℤ) : ℚ) / 1000000

structure CostSnapshot where
  embedding_tokens : ℕ
  completion_tokens : ℕ
  embedding_cost : ℚ
  completion_cost : ℚ
  total_cost : ℚ
  deriving DecidableEq

/-- `calculate_costs` (main.py lines 481-494): cost snapshot from the current
counters ($0.020 per 1M embedding tokens, $0.150 per 1M completion tokens).
The second component is the counter state after the call (the Python function
only reads `state.cost_tracker`, so it is returned unchanged). -/
def calculate_costs (st : CostTracker) : CostSnapshot × CostTracker :=
  let embedding_cost : ℚ := (st.embedding_tokens : ℚ) / 1000000 * (20 / 1000)
  let completion_cost : ℚ := (st.completion_tokens : ℚ) / 1000000 * (150 / 1000)
  (⟨st.embedding_tokens, st.completion_tokens, round6 embedding_cost,
    round6 completion_cost, round6 (embedding_cost + completion_cost)⟩, st)

/-- Python `str.strip()`: drop leading and trailing whitespace (modelled with
`Char.isWhitespace`). -/
def pyStrip (s : String) : String :=
  ⟨(((s.data.dropWhile Char.isWhitespace).reverse).dropWhile Char.isWhitespace).reverse⟩

/-- `np.zeros(config.EMBEDDING_DIMENSIONS)` with `EMBEDDING_DIMENSIONS = 1536`. -/
def zeroVector : List ℚ := List.replicate 1536 0

/-- `get_single_embedding` (main.py lines 496-507): strip the text, return a
zero vector for empty text without calling the backend, otherwise record the
embedding cost and THEN issue the backend call.  The embedding backend
(`client.embeddings.create`) is a parameter returning `Option`; the third
component lists the texts actually sent to the backend. -/
def get_single_embedding (countTokens : String → ℕ)
    (embed : String → Option (List ℚ)) (st : CostTracker) (text0 : String) :
    Option (List ℚ) × CostTracker × List String :=
  let text := pyStrip text0
  if text = "" then (some zeroVector, st, [])
  else
    let st1 := track_embedding_cost countTokens st text
    (embed text, st1, [text])

/-! ## Language detection (`detect_language`, main.py lines 534-550) -/

/-- Count of codepoints in the Arabic range U+0600..U+06FF. -/
def arabicCount (text : String) : ℕ :=
  (text.data.filter (fun c => decide (0x600 ≤ c.toNat) && decide (c.toNat ≤ 0x6FF))).length

/-- Count of ASCII alphabetic codepoints (`c.isascii() and c.isalpha()`). -/
def asciiAlphaCount (text : String) : ℕ :=
  (text.data.filter (fun c => decide (c.toNat ≤ 127) && c.isAlpha)).length

/-- `detect_language` (main.py lines 534-550). -/
def detect_language (text : String) : String :=
  let arabic_chars := arabicCount text
  let english_chars := asciiAlphaCount text
  let total_chars := arabic_chars + english_chars
  if total_chars = 0 then "unknown"
  else
    let arabicFrac : ℚ := (arabic_chars : ℚ) / (total_chars : ℚ)
    if 7 / 10 < arabicFrac then "arabic"
    else if arabicFrac < 3 / 10 then "english"
    else "mixed"

/-! ## Embedding index (`faiss.IndexFlatL2`, glossary rows, main.py lines
380-391, 622-623)

The index stores one embedding per glossary row in insertion order.  `search`
is faiss's exact brute-force search: the `k` smallest squared-L2 distances in
non-decreasing order (ties by lower row id).  When the index holds fewer than
`k` vectors, faiss fills the remaining result slots with label `-1` and
distance `FLT_MAX` — documented library behaviour relied on by the claims
about `k > n`. -/

/-- One row of the glossary DataFrame (`english`, `arabic` columns). -/
structure Entry where
  english : String
  arabic : String
  deriving DecidableEq

/-- Squared Euclidean distance (faiss `METRIC_L2`). -/
def sqDist (q v : List ℚ) : ℚ :=
  (List.zipWith (fun a b => (a - b) ^ 2) q v).sum

/-- Each stored row scored against the query: `(distance, row id)`. -/
def scoredEntries (index : List (List ℚ)) (q : List ℚ) : List (ℚ × ℕ) :=
  index.enum.map (fun p => (sqDist q p.2, p.1))

/-- Result order: by distance, ties broken by lower row id. -/
def rankLe (a b : ℚ × ℕ) : Prop :=
  a.1 < b.1 ∨ (a.1 = b.1 ∧ a.2 ≤ b.2)

instance : DecidableRel rankLe := fun a b =>
  inferInstanceAs (Decidable (a.1 < b.1 ∨ (a.1 = b.1 ∧ a.2 ≤ b.2)))

instance : IsTotal (ℚ × ℕ) rankLe where
  total a b := by
    rcases lt_trichotomy a.1 b.1 with h | h | h
    · exact Or.inl (Or.inl h)
    · rcases Nat.le_total a.2 b.2 with h2 | h2
      · exact Or.inl (Or.inr ⟨h, h2⟩)
      · exact Or.inr (Or.inr ⟨h.symm, h2⟩)
    · exact Or.inr (Or.inl h)

instance : IsTrans (ℚ × ℕ) rankLe where
  trans a b c hab hbc := by
    rcases hab with h1 | ⟨e1, l1⟩ <;> rcases hbc with h2 | ⟨e2, l2⟩
    · exact Or.inl (lt_trans h1 h2)
    · exact Or.inl (lt_of_lt_of_eq h1 e2)
    · exact Or.inl (lt_of_eq_of_lt e1 h2)
    · exact Or.inr ⟨e1.trans e2, le_trans l1 l2⟩

/-- The real (non-padded) part of a faiss search result: all rows ranked by
`(distance, row id)`, truncated to `k`. -/
def faissSearchRanked (index : List (List ℚ)) (q : List ℚ) (k : ℕ) : List (ℚ × ℕ) :=
  (List.insertionSort rankLe (scoredEntries index q)).take k

/-- Padding distance used by faiss for missing L2 results (FLT_MAX). -/
def FLT_MAX : ℚ := 340282346638528859811704183484516925440

/-- Full faiss search result for one query: exactly `k` `(distance, label)`
slots, padded with `(FLT_MAX, -1)` when fewer than `k` vectors are stored. -/
def faissSearch (index : List (List ℚ)) (q : List ℚ) (k : ℕ) : List (ℚ × ℤ) :=
  let found := (faissSearchRanked index q k).map (fun p => (p.1, (p.2 : ℤ)))
  found ++ List.replicate (k - found.length) (FLT_MAX, -1)

/-- pandas positional lookup `df.iloc[i]`: a negative position wraps once from
the end (`-1` is the last row); anything still out of range is an error. -/
def pandasIloc (g : List Entry) (i : ℤ) : Option Entry :=
  let j := if 0 ≤ i then i else (g.length : ℤ) + i
  if 0 ≤ j then g.get? j.toNat else none

/-- The pipeline's Retrieve step (main.py lines 622-623):
`state.index.search(..., TOP_K_RETRIEVAL)` followed by
`state.glossary.iloc[indices[0]]`. -/
def retrieveRows (index : List (List ℚ)) (glossary : List Entry)
    (qEmb : List ℚ) (k : ℕ) : List Entry :=
  ((faissSearch index qEmb k).map (fun p => p.2)).filterMap (pandasIloc glossary)

/-! ## Translation pipeline (`translate_text`, main.py lines 610-670) -/

/-- Error outcomes surfaced by the pipeline (`HTTPException` status classes). -/
inductive ApiError
  | invalidInput (detail : String)
  | serviceUnavailable (detail : String)
  | backendError (detail : String)
  deriving DecidableEq

/-- `text.replace('\x00', '')`: drop NUL codepoints. -/
def removeNul (s : String) : String :=
  ⟨s.data.filter (fun c => !(c == Char.ofNat 0))⟩

/-- `sanitize_text_input` (main.py lines 726-741) with the default
`max_length = 10000`. -/
def sanitize_text_input (text0 : String) : Except ApiError String :=
  if text0 = "" then Except.error (ApiError.invalidInput "Invalid text input")
  else
    let text := pyStrip (removeNul text0)
    if 10000 < text.length then
      Except.error (ApiError.invalidInput "Text too long. Maximum length: 10000 characters")
    else if text.length = 0 then Except.error (ApiError.invalidInput "Empty text input")
    else Except.ok text

/-- Python `"\n".join(lines)`. -/
def joinLines : List String → String
  | [] => ""
  | [s] => s
  | s :: rest => s ++ "\n" ++ joinLines rest

/-- Python `enumerate` over the retrieved rows, numbering lines from
`idx + 1`. -/
def contextLinesFrom (i : ℕ) : List Entry → List String
  | [] => []
  | e :: rest =>
    (toString (i + 1) ++ ". " ++ e.english ++ " = " ++ e.arabic)
      :: contextLinesFrom (i + 1) rest

/-- The numbered context lines `f"{idx+1}. {row['english']} = {row['arabic']}"`
(main.py lines 626-628). -/
def contextLines (retrieved : List Entry) : List String :=
  contextLinesFrom 0 retrieved

def buildContext (retrieved : List Entry) : String :=
  joinLines (contextLines retrieved)

/-- The fixed instruction template around the context block (main.py lines
632-641), split at the two interpolation points. -/
def promptHeader : String :=
  "You are FoodLang AI, an expert Arabic–English food packaging translator.\nUse the glossary context below to ensure consistent, regulatory-compliant translations.\n\nGlossary Context (most relevant matches):\n"

def promptMiddle : String :=
  "\n\nTranslate the following text naturally and accurately:\n\""

def promptFooter : String :=
  "\"\n\nProvide only the translation (no explanation or additional text)."

def buildPrompt (context query : String) : String :=
  promptHeader ++ context ++ promptMiddle ++ query ++ promptFooter

/-- The external OpenAI client: token counter, embedding call and chat
completion call (`complete` returns the message text and
`response.usage.total_tokens`). -/
structure Backends where
  countTokens : String → ℕ
  embed : String → Option (List ℚ)
  complete : String → Option (String × ℕ)

/-- The mutable module state read by `translate_text`: `state.initialized`,
`state.index`, `state.glossary`, `state.cost_tracker`. -/
structure ServerState where
  initialized : Bool
  index : List (List ℚ)
  glossary : List Entry
  cost : CostTracker
  deriving DecidableEq

/-- Outbound backend requests actually issued during one call. -/
inductive BackendCall
  | embedCall (text : String)
  | completeCall (prompt : String)
  deriving DecidableEq

structure TranslateResult where
  translated_text : String
  detected_language : String
  tokens_used : ℕ
  cost_estimate : ℚ
  deriving DecidableEq

/-- `translate_text` (main.py lines 610-670): readiness check, sanitize,
embed, retrieve, compose, generate, account, respond.  Returns the outcome,
the updated server state, and the outbound backend calls in issue order. -/
def translate_text (B : Backends) (st : ServerState) (query0 : String) :
    Except ApiError TranslateResult × ServerState × List BackendCall :=
  if st.initialized = false then
    (Except.error (ApiError.serviceUnavailable "Glossary not loaded. Please contact admin."),
      st, [])
  else
    match sanitize_text_input query0 with
    | Except.error e => (Except.error e, st, [])
    | Except.ok query =>
      let emb := get_single_embedding B.countTokens B.embed st.cost query
      let st1 := { st with cost := emb.2.1 }
      let embCalls := emb.2.2.map BackendCall.embedCall
      match emb.1 with
      | none => (Except.error (ApiError.backendError "embedding request failed"), st1, embCalls)
      | some qEmb =>
        let retrieved := retrieveRows st.index st.glossary qEmb 3
        let context := buildContext retrieved
        let prompt := buildPrompt context query
        match B.complete prompt with
        | none =>
          (Except.error (ApiError.backendError "completion request failed"), st1,
            embCalls ++ [BackendCall.completeCall prompt])
        | some result =>
          let st2 := { st1 with cost := track_completion_cost st1.cost result.2 }
          let cost_est := round6 ((B.countTokens query : ℚ) / 1000000 * (20 / 1000)
            + (result.2 : ℚ) / 1000000 * (150 / 1000))
          (Except.ok ⟨pyStrip result.1, detect_language query, result.2, cost_est⟩,
            st2, embCalls ++ [BackendCall.completeCall prompt])

/-- Scenario A corpus (spec section 8). -/
def entryChicken : Entry := ⟨"chicken breast", "صدر دجاج"⟩

def entrySalt : Entry := ⟨"salt", "ملح"⟩

def entrySugar : Entry := ⟨"sugar", "سكر"⟩

def scenarioGlossary : List Entry := [entryChicken, entrySalt, entrySugar]

/-- Scenario A index: the query embedding `[1]` is strictly nearest to row 0. -/
def scenarioIndex : List (List ℚ) := [[0], [9], [20]]

def scenarioBackends : Backends :=
  { countTokens := fun _ => 2
    embed := fun t => if t = "chicken" then some [1] else some [100]
    complete := fun _ => some ("صدر دجاج", 42) }

def scenarioState : ServerState :=
  { initialized := true
    index := scenarioIndex
    glossary := scenarioGlossary
    cost := ⟨0, 0, 0, 0⟩ }

/-- A stock backend for closed instantiations. -/
def plainBackends : Backends :=
  { countTokens := fun _ => 1
    embed := fun _ => some [0]
    complete := fun _ => some ("ok", 1) }

/-! ## Alerting (`HealthMonitor._trigger_alert`, main.py lines 1072-1083) -/

/-- `self.alert_cooldown.get(alert_type, 0)`: the cooldown dict as an
association list, with the Python default `0` for a missing key. -/
def cooldownGet (m : List (String × ℚ)) (k : String) : ℚ :=
  match m.find? (fun p => p.1 == k) with
  | some p => p.2
  | none => 0

/-- `self.alert_cooldown[alert_type] = now`: dict assignment (replaces any
existing binding for the key, keeps all others). -/
def cooldownSet (m : List (String × ℚ)) (k : String) (v : ℚ) : List (String × ℚ) :=
  (k, v) :: m.filter (fun p => p.1 != k)

/-- `self.alert_cooldown_duration = 300` (5 minutes). -/
def alert_cooldown_duration : ℚ := 300

/-- Cooldown dict plus the log of externally visible alerts
(`logger.warning` + `_log_alert`), each as `(alert_type, firing time)`. -/
structure AlertState where
  alert_cooldown : List (String × ℚ)
  alerts_fired : List (String × ℚ)
  deriving DecidableEq

/-- `_trigger_alert` (main.py lines 1072-1083): fire and reset the cooldown
timer when strictly more than the cooldown duration has passed since the
type's last firing, otherwise do nothing. -/
def trigger_alert (st : AlertState) (alert_type : String) (now : ℚ) : AlertState :=
  let last := cooldownGet st.alert_cooldown alert_type
  if alert_cooldown_duration < now - last then
    { alert_cooldown := cooldownSet st.alert_cooldown alert_type now
      alerts_fired := st.alerts_fired ++ [(alert_type, now)] }
  else st

/-- A sequence of `_trigger_alert` calls `(alert_type, time)`. -/
def runAlerts (st : AlertState) : List (String × ℚ) → AlertState
  | [] => st
  | c :: cs => runAlerts (trigger_alert st c.1 c.2) cs

/-- Invariant tying the fired log to the cooldown dict: every logged firing of
a type happened no later than the type's cooldown timestamp, and firings of
one type are spaced more than the cooldown duration apart. -/
def AlertInv (st : AlertState) : Prop :=
  ∀ X : String,
    (∀ p ∈ st.alerts_fired, p.1 = X → p.2 ≤ cooldownGet st.alert_cooldown X)
    ∧ (st.alerts_fired.filter (fun p => p.1 == X)).Pairwise
        (fun a b => alert_cooldown_duration < b.2 - a.2)

/-! ## System health checks (`HealthMonitor.check_system_health`, main.py
lines 943-1070)

The host environment probed by the checks (psutil availability and readings,
data directory, API key) is a record; the `alert_thresholds` are the fixed
values from `HealthMonitor.__init__`.  The `_trigger_alert` side effects of
failing checks are modelled separately by `trigger_alert`; this projection
returns the overall status string and the named check statuses, which the
alert calls do not influence. -/

/-- A probe reading of `none` models the psutil call raising at runtime:
inside the psutil block only `ImportError` is caught (main.py line 1030), so
a runtime failure of `psutil.virtual_memory()`, `psutil.cpu_percent()` or
`psutil.disk_usage("data")` propagates to the outer `except` of
`check_system_health` (main.py lines 1062-1068).  `psutil_available = false`
is the `ImportError` case. -/
structure HealthEnv where
  psutil_available : Bool
  memory_percent : Option ℚ
  cpu_percent : Option ℚ
  data_dir_exists : Bool
  disk_percent : Option ℚ
  api_key : String
  deriving DecidableEq

def memory_usage_threshold : ℚ := 85

def cpu_usage_threshold : ℚ := 90

def disk_usage_threshold : ℚ := 90

def error_rate_threshold : ℚ := 1 / 10

def response_time_threshold : ℚ := 5

/-- `check_system_health`: the sequence of named checks and the imperative
`overall_status` variable, which starts `"healthy"` and is set to
`"degraded"` by each failing check (the psutil-missing `"unknown"` entry and
the `avg_response_time > 0` guard are in the source).  A psutil probe that
raises at runtime (reading `none`) aborts the check sequence at that point
and falls through to the outer `except Exception` branch (main.py lines 952,
1062-1068): the checks recorded before the raise are kept, a `health_check`
entry with status `"error"` is added, and the overall status becomes
`"error"` regardless of any earlier degradation. -/
def check_system_health (env : HealthEnv) (m : MonitorBuffers)
    (initialized glossarySome : Bool) (now : ℚ) : String × List (String × String) :=
  let glossary_healthy := initialized && glossarySome
  let openai_healthy := (!(env.api_key == "")) && (decide (10 < env.api_key.length))
  let checks0 :=
    [("glossary", if glossary_healthy then "healthy" else "unhealthy"),
      ("openai_api", if openai_healthy then "healthy" else "unhealthy")]
  let degraded0 := (!glossary_healthy) || (!openai_healthy)
  let resources : Except (List (String × String)) (List (String × String) × Bool) :=
    if env.psutil_available then
      match env.memory_percent with
      | none => Except.error []
      | some mem =>
        let memory_healthy := decide (mem < memory_usage_threshold)
        let cMem := [("memory", if memory_healthy then "healthy" else "warning")]
        match env.cpu_percent with
        | none => Except.error cMem
        | some cpu =>
          let cpu_healthy := decide (cpu < cpu_usage_threshold)
          let cCpu := cMem ++ [("cpu", if cpu_healthy then "healthy" else "warning")]
          if env.data_dir_exists then
            match env.disk_percent with
            | none => Except.error cCpu
            | some disk =>
              let disk_healthy := decide (disk < disk_usage_threshold)
              Except.ok
                (cCpu ++ [("disk", if disk_healthy then "healthy" else "warning")],
                  (!memory_healthy) || (!cpu_healthy) || (!disk_healthy))
          else Except.ok (cCpu, (!memory_healthy) || (!cpu_healthy))
    else Except.ok ([("system_resources", "unknown")], false)
  match resources with
  | Except.error aborted =>
    ("error", checks0 ++ aborted ++ [("health_check", "error")])
  | Except.ok (resChecks, resDegrade) =>
    let error_rate_healthy := decide (get_error_rate m now 5 < error_rate_threshold)
    let response_time_healthy :=
      decide (get_avg_response_time m now 5 < response_time_threshold)
    let checks := checks0 ++ resChecks
      ++ [("error_rate", if error_rate_healthy then "healthy" else "warning"),
          ("response_time", if response_time_healthy then "healthy" else "warning")]
    let degraded := degraded0 || resDegrade || (!error_rate_healthy)
      || ((!response_time_healthy) && decide (0 < get_avg_response_time m now 5))
    (if degraded then "degraded" else "healthy", checks)

/-- Environment refuting the claimed check-status set and aggregate rule:
psutil unavailable, everything else healthy. -/
def cexHealthEnv : HealthEnv :=
  { psutil_available := false
    memory_percent := some 0
    cpu_percent := some 0
    data_dir_exists := false
    disk_percent := some 0
    api_key := "abcdefghijkl" }

/-- Environment in which the memory probe raises at runtime (psutil imports
but `psutil.virtual_memory()` fails). -/
def raisingHealthEnv : HealthEnv :=
  { psutil_available := true
    memory_percent := none
    cpu_percent := some 0
    data_dir_exists := false
    disk_percent := some 0
    api_key := "abcdefghijkl" }

/-! ## Theorems -/

theorem dropWhile_eq_self_of_head {p : ℚ → Bool} :
    ∀ l : List ℚ, (∀ x ∈ l, p x = false) → l.dropWhile p = l := by
  intro l h
  cases l with
  | nil => rfl
  | cons a t =>
    rw [List.dropWhile_cons]
    simp [h a (List.mem_cons_self a t)]

theorem dropWhile_eq_nil_of_all {p : ℚ → Bool} :
    ∀ l : List ℚ, (∀ x ∈ l, p x = true) → l.dropWhile p = [] := by
  intro l h
  induction l with
  | nil => rfl
  | cons a t ih =>
    rw [List.dropWhile_cons]
    simp only [h a (List.mem_cons_self a t), if_true]
    exact ih (fun x hx => h x (List.mem_cons_of_mem a hx))

theorem runChecks_burst (L : ℕ) (W : ℚ) :
    ∀ (ts s : List ℚ),
      (∀ x ∈ s, ∀ t ∈ ts, ¬ (x < t - W)) →
      (∀ x ∈ ts, ∀ t ∈ ts, ¬ (x < t - W)) →
      (runChecks L W s ts).1
        = (List.range ts.length).map (fun i => decide (s.length + i < L)) := by
  intro ts
  induction ts with
  | nil => intro s _ _; rfl
  | cons t ts ih =>
    intro s h1 h2
    have htrim : s.dropWhile (fun x => decide (x < t - W)) = s := by
      refine dropWhile_eq_self_of_head s (fun x hx => ?_)
      simpa using h1 x hx t (List.mem_cons_self t ts)
    rw [List.length_cons, List.range_succ_eq_map, List.map_cons, List.map_map]
    show ((is_allowed L W s t).1 ::
        (runChecks L W (is_allowed L W s t).2 ts).1) = _
    by_cases hfull : L ≤ s.length
    · have hres : is_allowed L W s t = (false, s) := by
        simp only [is_allowed, htrim, if_pos hfull]
      rw [hres]
      have htail := ih s
        (fun x hx u hu => h1 x hx u (List.mem_cons_of_mem t hu))
        (fun x hx u hu => h2 x (List.mem_cons_of_mem t hx) u (List.mem_cons_of_mem t hu))
      rw [htail]
      have hhead : decide (s.length + 0 < L) = false := by
        simp only [Nat.add_zero, decide_eq_false_iff_not]
        omega
      rw [hhead.symm]
      refine congrArg (fun z => decide (s.length + 0 < L) :: z) ?_
      refine List.map_congr_left (fun i _ => ?_)
      have e1 : decide (s.length + i < L) = false := by
        simp only [decide_eq_false_iff_not]; omega
      have e2 : decide (s.length + (i + 1) < L) = false := by
        simp only [decide_eq_false_iff_not]; omega
      simp only [Function.comp]
      rw [e1, e2]
    · have hres : is_allowed L W s t = (true, s ++ [t]) := by
        simp only [is_allowed, htrim, if_neg hfull]
      rw [hres]
      have htail := ih (s ++ [t])
        (fun x hx u hu => by
          rcases List.mem_append.mp hx with hx | hx
          · exact h1 x hx u (List.mem_cons_of_mem t hu)
          · have hxt : x = t := by simpa using hx
            subst hxt
            exact h2 x (List.mem_cons_self x ts) u (List.mem_cons_of_mem x hu))
        (fun x hx u hu => h2 x (List.mem_cons_of_mem t hx) u (List.mem_cons_of_mem t hu))
      rw [htail]
      have hhead : decide (s.length + 0 < L) = true := by
        simp only [Nat.add_zero, decide_eq_true_eq]
        omega
      rw [hhead.symm]
      refine congrArg (fun z => decide (s.length + 0 < L) :: z) ?_
      rw [List.length_append, List.length_singleton]
      refine List.map_congr_left (fun i _ => ?_)
      simp only [Function.comp]
      rw [show s.length + (i + 1) = s.length + 1 + i by omega]

/-- C1: Sliding-window admission.  Starting from an empty window, a burst of
checks all within `windowSeconds` of each other is admitted for exactly the
first `limit` checks and rejected afterwards; a check made after every stored
timestamp has aged out of the window is admitted again (into a fresh window);
a rejected check leaves only the trimmed timestamps, never appending its own;
and with `limit = 2`, `windowSeconds = 60`, checks at `t = 0, 1, 2` give
`[true, true, false]`. -/
theorem rate_limiter_sliding_window :
    (∀ (L : ℕ) (W : ℚ) (ts : List ℚ),
      (∀ x ∈ ts, ∀ t ∈ ts, t - W ≤ x) →
      (runChecks L W [] ts).1 = (List.range ts.length).map (fun i => decide (i < L)))
    ∧ (∀ (L : ℕ) (W : ℚ) (s : List ℚ) (t : ℚ), 1 ≤ L →
        (∀ x ∈ s, x < t - W) →
        is_allowed L W s t = (true, [t]))
    ∧ (∀ (L : ℕ) (W : ℚ) (s : List ℚ) (t : ℚ),
        L ≤ (s.dropWhile (fun x => decide (x < t - W))).length →
        is_allowed L W s t = (false, s.dropWhile (fun x => decide (x < t - W))))
    ∧ runChecks 2 60 [] [0, 1, 2] = ([true, true, false], [0, 1]) := by
  refine ⟨?_, ?_, ?_, by norm_num [runChecks, is_allowed]⟩
  · intro L W ts h
    have := runChecks_burst L W ts []
      (by intro x hx; simp at hx)
      (by intro x hx t ht; have := h x hx t ht; intro hc; linarith)
    simpa using this
  · intro L W s t hL h
    have htrim : s.dropWhile (fun x => decide (x < t - W)) = [] :=
      dropWhile_eq_nil_of_all s (fun x hx => by simpa using h x hx)
    simp only [is_allowed, htrim]
    simp only [List.length_nil]
    rw [if_neg (by omega)]
    rfl
  · intro L W s t h
    simp only [is_allowed, if_pos h]

/-- C1 witness: a concrete burst (limit 1, window 10, checks at 0 and 1) for
the universally quantified part, plus a concrete stale window for
re-admission and a concrete full window for rejection-without-recording. -/
theorem rate_limiter_sliding_window_witness :
    (runChecks 1 10 [] [0, 1]).1 = [true, false]
    ∧ is_allowed 2 10 [0, 1] 100 = (true, [100])
    ∧ is_allowed 2 10 [95, 96] 100 = (false, [95, 96]) := by
  refine ⟨?_, ?_, ?_⟩
  · have h := rate_limiter_sliding_window.1 1 10 [0, 1] (by norm_num)
    simpa using h
  · exact rate_limiter_sliding_window.2.1 2 10 [0, 1] 100 (by norm_num) (by norm_num)
  · have h := rate_limiter_sliding_window.2.2.1 2 10 [95, 96] 100
      (by norm_num [List.dropWhile])
    rw [h]
    norm_num [List.dropWhile]

/-- C2 counterexample: with one buffered error inside the 5-minute window and
two buffered latency samples of which only one is inside the window,
`get_error_rate` returns `1/2` (it divides by the whole latency buffer),
while the claimed formula gives `1/1 = 1`. -/
theorem error_rate_claim_counterexample :
    get_error_rate cexMonitor 10 5 = 1 / 2
    ∧ errorRateClaimed cexMonitor 10 5 = 1
    ∧ ¬ get_error_rate cexMonitor 10 5 = errorRateClaimed cexMonitor 10 5 := by
  refine ⟨by norm_num [get_error_rate, cexMonitor], by norm_num [errorRateClaimed, cexMonitor], ?_⟩
  norm_num [get_error_rate, errorRateClaimed, cexMonitor]

/-- C2 (amended): `get_error_rate` equals the count of buffered error samples
newer than `now - windowMinutes` divided by the TOTAL count of buffered
latency samples (the denominator is not filtered by the cutoff), and it is 0
when either buffer is empty. -/
theorem error_rate_counts_all_latency_samples :
    ∀ (m : MonitorBuffers) (now window_minutes : ℚ),
      get_error_rate m now window_minutes = errorRateAmended m now window_minutes := by
  intro m now w
  by_cases h1 : m.recent_errors = []
  · by_cases h2 : m.recent_response_times.length = 0 <;>
      simp [get_error_rate, errorRateAmended, h1, h2]
  · by_cases h2 : m.recent_response_times.length = 0 <;>
      simp [get_error_rate, errorRateAmended, h1, h2]

/-- C4 counterexample: a call whose embedding-backend request fails (backend
returns `none`) still increments the cost counters — `track_embedding_cost`
runs before the outbound call is issued. -/
theorem embedding_cost_on_failure_counterexample :
    get_single_embedding (fun _ => 7) (fun _ => none) ⟨0, 0, 0, 0⟩ "a"
      = (none, ⟨7, 0, 1, 0⟩, ["a"])
    ∧ (⟨7, 0, 1, 0⟩ : CostTracker) ≠ ⟨0, 0, 0, 0⟩ := by
  exact ⟨rfl, by decide⟩

/-- C4 (amended): `get_single_embedding` records the embedding cost BEFORE the
outbound backend call, so even a failing call charges `countTokens(text)`
embedding tokens and one embedding request; only the empty-text short-circuit
makes no backend call and leaves the counters unchanged. -/
theorem embedding_cost_recorded_before_call :
    ∀ (countTokens : String → ℕ) (embed : String → Option (List ℚ))
      (st : CostTracker) (text : String),
      (pyStrip text = "" →
        get_single_embedding countTokens embed st text = (some zeroVector, st, []))
      ∧ (pyStrip text ≠ "" →
          (get_single_embedding countTokens embed st text).2.1
              = track_embedding_cost countTokens st (pyStrip text)
            ∧ (get_single_embedding countTokens embed st text).1 = embed (pyStrip text)
            ∧ (get_single_embedding countTokens embed st text).2.1.embedding_tokens
                = st.embedding_tokens + countTokens (pyStrip text)
            ∧ (get_single_embedding countTokens embed st text).2.1.embedding_requests
                = st.embedding_requests + 1) := by
  intro countTokens embed st text
  constructor
  · intro h
    simp [get_single_embedding, h]
  · intro h
    simp [get_single_embedding, h, track_embedding_cost]

/-- C4 witness: the amended theorem applied at a failing backend with
text `"ab"`. -/
theorem embedding_cost_recorded_before_call_witness :
    pyStrip "ab" ≠ ""
    ∧ (get_single_embedding (fun _ => 7) (fun _ => none) ⟨0, 0, 0, 0⟩ "ab").2.1
        = track_embedding_cost (fun _ => 7) ⟨0, 0, 0, 0⟩ (pyStrip "ab") := by
  have h : pyStrip "ab" ≠ "" := by decide
  exact ⟨h,
    ((embedding_cost_recorded_before_call (fun _ => 7) (fun _ => none)
      ⟨0, 0, 0, 0⟩ "ab").2 h).1⟩

/-- C9: `calculate_costs` leaves the cost counters unchanged, and two
consecutive snapshots with no intervening `track_*_cost` call return
identical values. -/
theorem snapshot_idempotent_and_pure :
    ∀ st : CostTracker,
      (calculate_costs st).2 = st
      ∧ (calculate_costs ((calculate_costs st).2)).1 = (calculate_costs st).1 := by
  intro st
  exact ⟨rfl, rfl⟩

/-- C10: `detect_language` returns `"unknown"` exactly when the text has no
Arabic-range codepoint and no ASCII alphabetic character; otherwise it
returns `"arabic"`, `"english"` or `"mixed"` according to whether the Arabic
fraction is above `0.7`, below `0.3`, or in between. -/
theorem detect_language_buckets :
    ∀ text : String,
      (detect_language text = "unknown"
        ↔ arabicCount text = 0 ∧ asciiAlphaCount text = 0)
      ∧ (arabicCount text + asciiAlphaCount text ≠ 0 →
          ((detect_language text = "arabic"
              ↔ 7 / 10 <
                (arabicCount text : ℚ) / ((arabicCount text + asciiAlphaCount text : ℕ) : ℚ))
            ∧ (detect_language text = "english"
              ↔ (arabicCount text : ℚ) / ((arabicCount text + asciiAlphaCount text : ℕ) : ℚ)
                  < 3 / 10)
            ∧ (detect_language text = "mixed"
              ↔ 3 / 10 ≤
                  (arabicCount text : ℚ) / ((arabicCount text + asciiAlphaCount text : ℕ) : ℚ)
                ∧ (arabicCount text : ℚ) / ((arabicCount text + asciiAlphaCount text : ℕ) : ℚ)
                  ≤ 7 / 10))) := by
  intro text
  simp only [detect_language]
  by_cases h0 : arabicCount text + asciiAlphaCount text = 0
  · rw [if_pos h0]
    refine ⟨⟨fun _ => by omega, fun _ => rfl⟩, fun hc => absurd h0 hc⟩
  · rw [if_neg h0]
    refine ⟨⟨fun hu => ?_, fun hz => by omega⟩, fun _ => ?_⟩
    · split_ifs at hu <;> exact absurd hu (by decide)
    · by_cases h1 : (7 : ℚ) / 10 <
        (arabicCount text : ℚ) / ((arabicCount text + asciiAlphaCount text : ℕ) : ℚ)
      · rw [if_pos h1]
        refine ⟨iff_of_true rfl h1, iff_of_false (by decide) (by intro h2; linarith),
          iff_of_false (by decide) ?_⟩
        rintro ⟨-, hle⟩
        linarith
      · rw [if_neg h1]
        by_cases h2 : (arabicCount text : ℚ) / ((arabicCount text + asciiAlphaCount text : ℕ) : ℚ)
            < 3 / 10
        · rw [if_pos h2]
          refine ⟨iff_of_false (by decide) h1, iff_of_true rfl h2,
            iff_of_false (by decide) ?_⟩
          rintro ⟨hge, -⟩
          linarith
        · rw [if_neg h2]
          exact ⟨iff_of_false (by decide) h1, iff_of_false (by decide) h2,
            iff_of_true rfl ⟨le_of_not_lt h2, le_of_not_lt h1⟩⟩

/-- C10 witness: `"abc"` has three ASCII letters and no Arabic codepoint, so
its Arabic fraction is `0 < 0.3` and the tag is `"english"`. -/
theorem detect_language_buckets_witness :
    arabicCount "abc" + asciiAlphaCount "abc" ≠ 0
    ∧ detect_language "abc" = "english" := by
  have h : arabicCount "abc" + asciiAlphaCount "abc" ≠ 0 := by decide
  refine ⟨h, (((detect_language_buckets "abc").2 h).2.1).mpr ?_⟩
  rw [show arabicCount "abc" = 0 from by decide,
    show asciiAlphaCount "abc" = 3 from by decide]
  norm_num

/-- C6: when the index has not been built (`state.initialized` false), the
pipeline fails with the 503 `ServiceUnavailable` outcome immediately: the
state (including every cost counter) is unchanged and no backend call — in
particular no embedding call — is issued, whatever the query. -/
theorem unbuilt_index_short_circuit :
    ∀ (B : Backends) (st : ServerState) (query : String),
      st.initialized = false →
      translate_text B st query
        = (Except.error
            (ApiError.serviceUnavailable "Glossary not loaded. Please contact admin."),
          st, []) := by
  intro B st query h
  simp [translate_text, h]

/-- C6 witness: the theorem applied to a concrete unbuilt state. -/
theorem unbuilt_index_short_circuit_witness :
    (⟨false, [], [], ⟨0, 0, 0, 0⟩⟩ : ServerState).initialized = false
    ∧ translate_text plainBackends ⟨false, [], [], ⟨0, 0, 0, 0⟩⟩ "hello"
        = (Except.error
            (ApiError.serviceUnavailable "Glossary not loaded. Please contact admin."),
          ⟨false, [], [], ⟨0, 0, 0, 0⟩⟩, []) :=
  ⟨rfl, unbuilt_index_short_circuit plainBackends ⟨false, [], [], ⟨0, 0, 0, 0⟩⟩ "hello" rfl⟩

/-- C3 counterexample: over a one-entry corpus, a search with `k = 3` returns
3 result slots (not 1): the real row plus two `(FLT_MAX, -1)` placeholders,
and the pipeline's `iloc` row lookup maps `-1` to the last row, so the
retrieval yields the single entry three times — a repeated entry, not
"exactly n results". -/
theorem search_overfetch_counterexample :
    (faissSearch [[0]] [0] 3).length = 3
    ∧ ¬ (faissSearch [[0]] [0] 3).length = 1
    ∧ faissSearch [[0]] [0] 3 = [(0, 0), (FLT_MAX, -1), (FLT_MAX, -1)]
    ∧ retrieveRows [[0]] [entrySalt] [0] 3 = [entrySalt, entrySalt, entrySalt] := by
  have hs : faissSearch [[0]] [0] 3 = [(0, 0), (FLT_MAX, -1), (FLT_MAX, -1)] := by
    norm_num [faissSearch, faissSearchRanked, scoredEntries, sqDist,
      List.replicate_succ]
  refine ⟨by rw [hs]; rfl, by rw [hs]; simp, hs, ?_⟩
  rw [retrieveRows, hs]
  norm_num [pandasIloc, List.filterMap_cons, List.get?]

theorem scoredEntries_length (index : List (List ℚ)) (q : List ℚ) :
    (scoredEntries index q).length = index.length := by
  simp [scoredEntries]

theorem insertionSort_scored_length (index : List (List ℚ)) (q : List ℚ) :
    (List.insertionSort rankLe (scoredEntries index q)).length = index.length := by
  rw [(List.perm_insertionSort rankLe _).length_eq, scoredEntries_length]

theorem faissSearchRanked_sorted (index : List (List ℚ)) (q : List ℚ) (k : ℕ) :
    List.Sorted rankLe (faissSearchRanked index q k) := by
  have h : List.Pairwise rankLe (List.insertionSort rankLe (scoredEntries index q)) :=
    List.sorted_insertionSort rankLe _
  exact h.sublist (List.take_sublist k _)

theorem faissSearchRanked_mem (index : List (List ℚ)) (q : List ℚ) (k : ℕ) :
    ∀ p ∈ faissSearchRanked index q k, p ∈ scoredEntries index q := by
  intro p hp
  simp only [faissSearchRanked] at hp
  exact (List.mem_insertionSort rankLe).mp (List.mem_of_mem_take hp)

theorem faissSearchRanked_min (index : List (List ℚ)) (q : List ℚ) (k : ℕ) :
    ∀ p ∈ faissSearchRanked index q k, ∀ s ∈ scoredEntries index q,
      s ∉ faissSearchRanked index q k → rankLe p s := by
  intro p hp s hs hns
  simp only [faissSearchRanked] at hp hns
  have hsort : List.Pairwise rankLe
      ((List.insertionSort rankLe (scoredEntries index q)).take k
        ++ (List.insertionSort rankLe (scoredEntries index q)).drop k) := by
    rw [List.take_append_drop]
    exact List.sorted_insertionSort rankLe _
  have hcross := (List.pairwise_append.mp hsort).2.2
  have hmem : s ∈ (List.insertionSort rankLe (scoredEntries index q)).take k
      ∨ s ∈ (List.insertionSort rankLe (scoredEntries index q)).drop k := by
    rw [← List.mem_append, List.take_append_drop]
    exact (List.mem_insertionSort rankLe).mpr hs
  rcases hmem with h | h
  · exact absurd h hns
  · exact hcross p hp s h

/-- C3 (amended): for `k ≤ n` the search returns exactly `k` genuine results
sorted by non-decreasing squared distance with ties broken by lower row index
and no dropped result ranks before a returned one, with no padding; for
`k > n` the search still returns exactly `k` slots — the whole ranked corpus
followed by `k - n` placeholders `(FLT_MAX, -1)` — and the pipeline's `iloc`
lookup maps the `-1` placeholder label to the LAST glossary row (so, as the
counterexample shows concretely, retrieval with `k = 3` over `n < 3` entries
yields 3 rows containing repeats of the last entry, not `n` distinct ones). -/
theorem search_count_order_amended :
    ∀ (index : List (List ℚ)) (q : List ℚ) (k : ℕ),
      (k ≤ index.length →
        (faissSearchRanked index q k).length = k
        ∧ List.Sorted rankLe (faissSearchRanked index q k)
        ∧ (∀ p ∈ faissSearchRanked index q k, p ∈ scoredEntries index q)
        ∧ (∀ p ∈ faissSearchRanked index q k, ∀ s ∈ scoredEntries index q,
            s ∉ faissSearchRanked index q k → rankLe p s)
        ∧ faissSearch index q k
            = (faissSearchRanked index q k).map (fun p => (p.1, (p.2 : ℤ))))
      ∧ (index.length < k →
          (faissSearch index q k).length = k
          ∧ faissSearchRanked index q k = List.insertionSort rankLe (scoredEntries index q)
          ∧ faissSearch index q k
              = (List.insertionSort rankLe (scoredEntries index q)).map
                  (fun p => (p.1, (p.2 : ℤ)))
                ++ List.replicate (k - index.length) (FLT_MAX, -1))
      ∧ (∀ (g : List Entry) (e : Entry), g.getLast? = some e →
          pandasIloc g (-1) = some e) := by
  intro index q k
  refine ⟨fun hk => ?_, fun hk => ?_, fun g e h => ?_⟩
  · have hlen : (faissSearchRanked index q k).length = k := by
      simp only [faissSearchRanked]
      rw [List.length_take, insertionSort_scored_length]
      omega
    refine ⟨hlen, faissSearchRanked_sorted index q k, faissSearchRanked_mem index q k,
      faissSearchRanked_min index q k, ?_⟩
    simp only [faissSearch]
    rw [List.length_map, hlen, Nat.sub_self, List.replicate_zero, List.append_nil]
  · have hall : faissSearchRanked index q k
        = List.insertionSort rankLe (scoredEntries index q) := by
      simp only [faissSearchRanked]
      exact List.take_of_length_le (by rw [insertionSort_scored_length]; omega)
    have hlen : (faissSearchRanked index q k).length = index.length := by
      rw [hall, insertionSort_scored_length]
    constructor
    · simp only [faissSearch]
      rw [List.length_append, List.length_map, List.length_replicate, hlen]
      omega
    · refine ⟨hall, ?_⟩
      simp only [faissSearch]
      rw [hall, List.length_map, insertionSort_scored_length]
  · have hne : g ≠ [] := by
      intro h0
      subst h0
      simp at h
    have hlen : 1 ≤ g.length := List.length_pos.mpr hne
    have h0j : (0 : ℤ) ≤ (g.length : ℤ) + (-1) := by omega
    have hinner : (if (0 : ℤ) ≤ (-1 : ℤ) then (-1 : ℤ) else (g.length : ℤ) + (-1))
        = (g.length : ℤ) + (-1) := by norm_num
    simp only [pandasIloc]
    rw [hinner, if_pos h0j]
    have hj : ((g.length : ℤ) + (-1)).toNat = g.length - 1 := by omega
    rw [hj, List.get?_eq_getElem?, ← List.getLast?_eq_getElem?]
    exact h

/-- C3 witness: the amended theorem applied at a two-entry corpus with
`k = 1 ≤ n`, a one-entry corpus with `k = 3 > n`, and a one-row glossary for
the `-1` lookup. -/
theorem search_count_order_amended_witness :
    ((1 : ℕ) ≤ ([[0], [3]] : List (List ℚ)).length
      ∧ (faissSearchRanked [[0], [3]] [0] 1).length = 1)
    ∧ (([[0]] : List (List ℚ)).length < 3 ∧ (faissSearch [[0]] [0] 3).length = 3)
    ∧ ([entrySalt].getLast? = some entrySalt
      ∧ pandasIloc [entrySalt] (-1) = some entrySalt) := by
  refine ⟨⟨by simp, ?_⟩, ⟨by simp, ?_⟩, ⟨rfl, ?_⟩⟩
  · exact ((search_count_order_amended [[0], [3]] [0] 1).1 (by simp)).1
  · exact ((search_count_order_amended [[0]] [0] 3).2.1 (by simp)).1
  · exact (search_count_order_amended [] [] 0).2.2 [entrySalt] entrySalt rfl

theorem joinLines_cons (x : String) (xs : List String) :
    ∃ r, joinLines (x :: xs) = x ++ r := by
  cases xs with
  | nil => exact ⟨"", by simp [joinLines]⟩
  | cons y ys =>
    exact ⟨"\n" ++ joinLines (y :: ys), by simp [joinLines, String.append_assoc]⟩

theorem buildContext_cons (e : Entry) (rest : List Entry) :
    ∃ r, buildContext (e :: rest)
      = ("1. " ++ e.english ++ " = " ++ e.arabic) ++ r := by
  have hline : contextLines (e :: rest)
      = ("1. " ++ e.english ++ " = " ++ e.arabic) :: contextLinesFrom 1 rest := rfl
  rw [buildContext, hline]
  exact joinLines_cons _ _

/-- C8: after sanitize succeeds and the embedding backend returns a vector,
the pipeline issues exactly one embedding call for the query and one
generation call with the prompt built by interpolating the numbered context
block and the query into the fixed template; a non-empty retrieval puts its
first (nearest) entry on the line `1. source = target` and the prompt
contains that line; retrieval order is the ranked (nearest-first) order. -/
theorem prompt_composition :
    ∀ (B : Backends) (st : ServerState) (query0 query : String) (qv : List ℚ),
      st.initialized = true →
      sanitize_text_input query0 = Except.ok query →
      pyStrip query = query →
      query ≠ "" →
      B.embed query = some qv →
      ((translate_text B st query0).2.2
          = [BackendCall.embedCall query,
            BackendCall.completeCall
              (buildPrompt (buildContext (retrieveRows st.index st.glossary qv 3)) query)])
      ∧ (∀ (e : Entry) (rest : List Entry),
          retrieveRows st.index st.glossary qv 3 = e :: rest →
          (∃ r, buildContext (e :: rest) = ("1. " ++ e.english ++ " = " ++ e.arabic) ++ r)
          ∧ (∃ pre post, buildPrompt (buildContext (e :: rest)) query
              = pre ++ ("1. " ++ e.english ++ " = " ++ e.arabic) ++ post))
      ∧ List.Sorted rankLe (faissSearchRanked st.index qv 3) := by
  intro B st query0 query qv h1 h2 h3 h4 h5
  have hemb : get_single_embedding B.countTokens B.embed st.cost query
      = (some qv, track_embedding_cost B.countTokens st.cost query, [query]) := by
    simp only [get_single_embedding, h3]
    rw [if_neg h4, h5]
  refine ⟨?_, ?_, faissSearchRanked_sorted st.index qv 3⟩
  · cases hc : B.complete
        (buildPrompt (buildContext (retrieveRows st.index st.glossary qv 3)) query) with
    | none => simp [translate_text, h1, h2, hemb, hc]
    | some r => simp [translate_text, h1, h2, hemb, hc]
  · intro e rest _
    obtain ⟨r, hr⟩ := buildContext_cons e rest
    refine ⟨⟨r, hr⟩,
      ⟨promptHeader, r ++ (promptMiddle ++ (query ++ promptFooter)), ?_⟩⟩
    rw [buildPrompt, hr]
    simp [String.append_assoc]

/-- C8 witness: scenario A — corpus `[("chicken breast","صدر دجاج"),
("salt","ملح"), ("sugar","سكر")]` with query `"chicken"` embedded nearest to
row 0; retrieval returns `"chicken breast"` first and the generation prompt
contains the line `"1. chicken breast = صدر دجاج"`. -/
theorem prompt_composition_witness :
    sanitize_text_input "chicken" = Except.ok "chicken"
    ∧ scenarioBackends.embed "chicken" = some [1]
    ∧ retrieveRows scenarioState.index scenarioState.glossary [1] 3
        = [entryChicken, entrySalt, entrySugar]
    ∧ (translate_text scenarioBackends scenarioState "chicken").2.2
        = [BackendCall.embedCall "chicken",
          BackendCall.completeCall
            (buildPrompt (buildContext [entryChicken, entrySalt, entrySugar]) "chicken")]
    ∧ (∃ pre post,
        buildPrompt (buildContext [entryChicken, entrySalt, entrySugar]) "chicken"
          = pre ++ ("1. " ++ "chicken breast" ++ " = " ++ "صدر دجاج") ++ post) := by
  have h2 : sanitize_text_input "chicken" = Except.ok "chicken" := by rfl
  have h3 : pyStrip "chicken" = "chicken" := by decide
  have h4 : ("chicken" : String) ≠ "" := by decide
  have h5 : scenarioBackends.embed "chicken" = some [1] := by simp [scenarioBackends]
  have hmain := prompt_composition scenarioBackends scenarioState "chicken" "chicken" [1]
    rfl h2 h3 h4 h5
  have hr : retrieveRows scenarioState.index scenarioState.glossary [1] 3
      = [entryChicken, entrySalt, entrySugar] := by
    norm_num [scenarioState, scenarioIndex, scenarioGlossary, retrieveRows, faissSearch,
      faissSearchRanked, scoredEntries, sqDist, rankLe, pandasIloc,
      List.filterMap_cons, List.get?]
  refine ⟨h2, h5, hr, ?_, ?_⟩
  · have hcalls := hmain.1
    rw [hr] at hcalls
    exact hcalls
  · exact (hmain.2.1 entryChicken [entrySalt, entrySugar] hr).2

theorem cooldownGet_set_self (m : List (String × ℚ)) (k : String) (v : ℚ) :
    cooldownGet (cooldownSet m k v) k = v := by
  simp only [cooldownGet, cooldownSet]
  rw [List.find?_cons_of_pos _ (by simp)]

theorem cooldownGet_set_other (m : List (String × ℚ)) (k k' : String) (v : ℚ)
    (h : k' ≠ k) :
    cooldownGet (cooldownSet m k v) k' = cooldownGet m k' := by
  simp only [cooldownGet, cooldownSet]
  rw [List.find?_cons_of_neg _ (by simp; exact fun h' => h h'.symm)]
  suffices hs : List.find? (fun p => p.1 == k') (m.filter (fun p => p.1 != k))
      = List.find? (fun p => p.1 == k') m by rw [hs]
  induction m with
  | nil => rfl
  | cons a t ih =>
    rw [List.filter_cons]
    by_cases ha : a.1 = k
    · rw [if_neg (by simp [ha])]
      rw [List.find?_cons_of_neg _ (by simp [ha]; exact fun h' => h h'.symm)]
      exact ih
    · rw [if_pos (by simp [ha])]
      by_cases hm : a.1 = k'
      · rw [List.find?_cons_of_pos _ (by simp [hm]),
          List.find?_cons_of_pos _ (by simp [hm])]
      · rw [List.find?_cons_of_neg _ (by simp [hm]),
          List.find?_cons_of_neg _ (by simp [hm])]
        exact ih

theorem trigger_alert_preserves_inv (st : AlertState) (ty : String) (t : ℚ)
    (h : AlertInv st) : AlertInv (trigger_alert st ty t) := by
  simp only [trigger_alert]
  by_cases hc : alert_cooldown_duration < t - cooldownGet st.alert_cooldown ty
  · rw [if_pos hc]
    intro X
    by_cases hX : X = ty
    · subst hX
      constructor
      · intro p hp hpX
        rw [cooldownGet_set_self]
        rcases List.mem_append.mp hp with hp | hp
        · have hle := (h X).1 p hp hpX
          have hdur : (0 : ℚ) ≤ alert_cooldown_duration := by
            norm_num [alert_cooldown_duration]
          linarith
        · have hp2 : p = (X, t) := by simpa using hp
          rw [hp2]
      · rw [List.filter_append]
        rw [show List.filter (fun p => p.1 == X) [(X, t)] = [(X, t)] by simp]
        refine List.pairwise_append.mpr ⟨(h X).2, List.pairwise_singleton _ _, ?_⟩
        intro a ha b hb
        have hb2 : b = (X, t) := by simpa using hb
        subst hb2
        have haf : a ∈ st.alerts_fired := List.mem_of_mem_filter ha
        have haX : a.1 = X := by simpa using List.of_mem_filter ha
        have hle := (h X).1 a haf haX
        linarith
    · constructor
      · intro p hp hpX
        rw [cooldownGet_set_other _ _ _ _ hX]
        rcases List.mem_append.mp hp with hp | hp
        · exact (h X).1 p hp hpX
        · have hp2 : p = (ty, t) := by simpa using hp
          rw [hp2] at hpX
          exact absurd hpX.symm hX
      · rw [List.filter_append]
        rw [show List.filter (fun p => p.1 == X) [(ty, t)] = [] by
          simp
          exact fun h' => hX h'.symm]
        rw [List.append_nil]
        exact (h X).2
  · rw [if_neg hc]
    exact h

theorem runAlerts_preserves_inv :
    ∀ (calls : List (String × ℚ)) (st : AlertState),
      AlertInv st → AlertInv (runAlerts st calls) := by
  intro calls
  induction calls with
  | nil => exact fun st h => h
  | cons c cs ih =>
    intro st h
    exact ih _ (trigger_alert_preserves_inv st c.1 c.2 h)

/-- C5: two `_trigger_alert` calls for one type within the cooldown produce
exactly one visible alert; a third call more than the cooldown after the
first produces a second alert; across ANY call sequence the firings of one
type are spaced more than the cooldown duration apart; and a type with no
cooldown entry fires on its first call (the missing-key default is `0`, so
this needs the call time to exceed the cooldown duration — true of any real
`time.time()` value). -/
theorem alert_cooldown_behaviour :
    (∀ (st : AlertState) (X : String) (t1 t2 : ℚ),
      alert_cooldown_duration < t1 - cooldownGet st.alert_cooldown X →
      t2 - t1 ≤ alert_cooldown_duration →
      (runAlerts st [(X, t1), (X, t2)]).alerts_fired = st.alerts_fired ++ [(X, t1)])
    ∧ (∀ (st : AlertState) (X : String) (t1 t2 t3 : ℚ),
        alert_cooldown_duration < t1 - cooldownGet st.alert_cooldown X →
        t2 - t1 ≤ alert_cooldown_duration →
        alert_cooldown_duration < t3 - t1 →
        (runAlerts st [(X, t1), (X, t2), (X, t3)]).alerts_fired
          = st.alerts_fired ++ [(X, t1), (X, t3)])
    ∧ (∀ (c0 : List (String × ℚ)) (calls : List (String × ℚ)) (X : String),
        ((runAlerts ⟨c0, []⟩ calls).alerts_fired.filter (fun p => p.1 == X)).Pairwise
          (fun a b => alert_cooldown_duration < b.2 - a.2))
    ∧ (∀ (st : AlertState) (X : String) (t : ℚ),
        (∀ p ∈ st.alert_cooldown, p.1 ≠ X) →
        alert_cooldown_duration < t →
        (trigger_alert st X t).alerts_fired = st.alerts_fired ++ [(X, t)]) := by
  have hfire : ∀ (st : AlertState) (X : String) (t : ℚ),
      alert_cooldown_duration < t - cooldownGet st.alert_cooldown X →
      trigger_alert st X t
        = ⟨cooldownSet st.alert_cooldown X t, st.alerts_fired ++ [(X, t)]⟩ := by
    intro st X t h
    simp only [trigger_alert]
    rw [if_pos h]
  have hskip : ∀ (st : AlertState) (X : String) (t : ℚ),
      ¬ alert_cooldown_duration < t - cooldownGet st.alert_cooldown X →
      trigger_alert st X t = st := by
    intro st X t h
    simp only [trigger_alert]
    rw [if_neg h]
  refine ⟨?_, ?_, ?_, ?_⟩
  · intro st X t1 t2 h1 h2
    show (trigger_alert (trigger_alert st X t1) X t2).alerts_fired = _
    rw [hfire st X t1 h1, hskip _ X t2 (by
      show ¬ alert_cooldown_duration
          < t2 - cooldownGet (cooldownSet st.alert_cooldown X t1) X
      rw [cooldownGet_set_self]
      linarith)]
  · intro st X t1 t2 t3 h1 h2 h3
    show (trigger_alert (trigger_alert (trigger_alert st X t1) X t2) X t3).alerts_fired = _
    rw [hfire st X t1 h1, hskip _ X t2 (by
      show ¬ alert_cooldown_duration
          < t2 - cooldownGet (cooldownSet st.alert_cooldown X t1) X
      rw [cooldownGet_set_self]
      linarith)]
    rw [hfire _ X t3 (by
      show alert_cooldown_duration
          < t3 - cooldownGet (cooldownSet st.alert_cooldown X t1) X
      rw [cooldownGet_set_self]
      linarith)]
    simp
  · intro c0 calls X
    have h0 : AlertInv ⟨c0, []⟩ := by
      intro Y
      constructor
      · intro p hp
        simp at hp
      · simp
    exact ((runAlerts_preserves_inv calls ⟨c0, []⟩ h0) X).2
  · intro st X t hnone ht
    have hz : cooldownGet st.alert_cooldown X = 0 := by
      simp only [cooldownGet]
      rw [List.find?_eq_none.mpr (by
        intro p hp
        simpa using hnone p hp)]
    rw [hfire st X t (by rw [hz]; linarith)]

/-- C5 witness: from an empty state, calls for `"slow_response"` at
`t = 301, 400` fire once; at `t = 301, 400, 700` fire twice; a first call at
`t = 301` for a type with no cooldown entry fires. -/
theorem alert_cooldown_behaviour_witness :
    (runAlerts ⟨[], []⟩ [("slow_response", 301), ("slow_response", 400)]).alerts_fired
      = [("slow_response", 301)]
    ∧ (runAlerts ⟨[], []⟩
        [("slow_response", 301), ("slow_response", 400), ("slow_response", 700)]).alerts_fired
      = [("slow_response", 301), ("slow_response", 700)]
    ∧ (trigger_alert ⟨[("other_alert", 50)], []⟩ "slow_response" 301).alerts_fired
      = [("slow_response", 301)] := by
  refine ⟨?_, ?_, ?_⟩
  · have h := alert_cooldown_behaviour.1 ⟨[], []⟩ "slow_response" 301 400
      (by norm_num [cooldownGet, alert_cooldown_duration])
      (by norm_num [alert_cooldown_duration])
    simpa using h
  · have h := alert_cooldown_behaviour.2.1 ⟨[], []⟩ "slow_response" 301 400 700
      (by norm_num [cooldownGet, alert_cooldown_duration])
      (by norm_num [alert_cooldown_duration])
      (by norm_num [alert_cooldown_duration])
    simpa using h
  · have h := alert_cooldown_behaviour.2.2.2 ⟨[("other_alert", 50)], []⟩ "slow_response" 301
      (by
        intro p hp
        have hp2 : p = ("other_alert", 50) := by simpa using hp
        rw [hp2]
        decide)
      (by norm_num [alert_cooldown_duration])
    simpa using h

/-- C7 counterexample: when psutil is unavailable the `system_resources`
check is reported with status `"unknown"` — outside the claimed status set —
and the overall status stays `"healthy"` even though that check is not
healthy, refuting both the claimed per-check status range and the claimed
"healthy iff every check healthy" aggregate rule. -/
theorem health_unknown_status_counterexample :
    check_system_health cexHealthEnv ⟨[], []⟩ true true 0
      = ("healthy",
        [("glossary", "healthy"), ("openai_api", "healthy"),
          ("system_resources", "unknown"),
          ("error_rate", "healthy"), ("response_time", "healthy")])
    ∧ ("unknown" : String) ≠ "healthy"
    ∧ ("unknown" : String) ≠ "warning"
    ∧ ("unknown" : String) ≠ "unhealthy"
    ∧ ("unknown" : String) ≠ "degraded" := by
  refine ⟨?_, by decide, by decide, by decide, by decide⟩
  norm_num [check_system_health, cexHealthEnv, get_error_rate,
    get_avg_response_time, error_rate_threshold, response_time_threshold,
    show (("abcdefghijkl" : String) == "") = false from rfl,
    show ("abcdefghijkl" : String).length = 12 from rfl]

/-- C7 (amended): every individual check status is one of `healthy`,
`warning`, `unhealthy`, `unknown` (the psutil-missing placeholder) or
`error` (the outer `except` branch); the overall status is always `healthy`,
`degraded` or `error`; when no psutil probe raises at runtime, the overall
status is `healthy` exactly when no check is `warning` or `unhealthy` — an
`unknown` check does not degrade the aggregate; and when a psutil probe does
raise, the overall status is `error` and a `health_check` check with status
`error` is reported. -/
theorem health_aggregate_amended :
    ∀ (env : HealthEnv) (m : MonitorBuffers) (initialized glossarySome : Bool)
      (now : ℚ),
      (∀ c ∈ (check_system_health env m initialized glossarySome now).2,
          c.2 = "healthy" ∨ c.2 = "warning" ∨ c.2 = "unhealthy" ∨ c.2 = "unknown"
            ∨ c.2 = "error")
      ∧ ((check_system_health env m initialized glossarySome now).1 = "healthy"
          ∨ (check_system_health env m initialized glossarySome now).1 = "degraded"
          ∨ (check_system_health env m initialized glossarySome now).1 = "error")
      ∧ (env.psutil_available = false
          ∨ (env.memory_percent ≠ none ∧ env.cpu_percent ≠ none
              ∧ (env.data_dir_exists = false ∨ env.disk_percent ≠ none)) →
          ((check_system_health env m initialized glossarySome now).1 = "healthy"
            ↔ ∀ c ∈ (check_system_health env m initialized glossarySome now).2,
                c.2 = "healthy" ∨ c.2 = "unknown"))
      ∧ (env.psutil_available = true
          ∧ (env.memory_percent = none ∨ env.cpu_percent = none
              ∨ (env.data_dir_exists = true ∧ env.disk_percent = none)) →
          (check_system_health env m initialized glossarySome now).1 = "error"
          ∧ ("health_check", "error")
              ∈ (check_system_health env m initialized glossarySome now).2) := by
  intro env m initialized glossarySome now
  obtain ⟨p, mo, co, d, ko, key⟩ := env
  have hz : ∀ x : ℚ,
      ((!(decide (x < response_time_threshold))) && decide (0 < x))
        = (!(decide (x < response_time_threshold))) := by
    intro x
    by_cases h : x < response_time_threshold
    · simp [h]
    · have h5 : (5 : ℚ) ≤ x := by
        simpa [response_time_threshold] using le_of_not_lt h
      simp [h]
      linarith
  cases p with
  | false =>
    have hres : check_system_health ⟨false, mo, co, d, ko, key⟩
        m initialized glossarySome now
      = (if ((!(initialized && glossarySome))
              || (!((!(key == "")) && decide (10 < key.length))))
            || false
            || (!(decide (get_error_rate m now 5 < error_rate_threshold)))
            || ((!(decide (get_avg_response_time m now 5 < response_time_threshold)))
                && decide (0 < get_avg_response_time m now 5))
          then "degraded" else "healthy",
        [("glossary", if initialized && glossarySome then "healthy" else "unhealthy"),
          ("openai_api",
            if (!(key == "")) && decide (10 < key.length) then "healthy" else "unhealthy"),
          ("system_resources", "unknown"),
          ("error_rate",
            if decide (get_error_rate m now 5 < error_rate_threshold)
            then "healthy" else "warning"),
          ("response_time",
            if decide (get_avg_response_time m now 5 < response_time_threshold)
            then "healthy" else "warning")]) := rfl
    rw [hres, hz (get_avg_response_time m now 5)]
    generalize (initialized && glossarySome) = A
    generalize ((!(key == "")) && decide (10 < key.length)) = B
    generalize (decide (get_error_rate m now 5 < error_rate_threshold)) = E
    generalize (decide (get_avg_response_time m now 5 < response_time_threshold)) = R
    refine ⟨?_, ?_, fun _ => ?_, fun h => ?_⟩
    · revert A B E R
      decide
    · revert A B E R
      decide
    · revert A B E R
      decide
    · exact absurd h.1 (by simp)
  | true =>
    cases mo with
    | none =>
      have hres : check_system_health ⟨true, none, co, d, ko, key⟩
          m initialized glossarySome now
        = ("error",
          [("glossary", if initialized && glossarySome then "healthy" else "unhealthy"),
            ("openai_api",
              if (!(key == "")) && decide (10 < key.length) then "healthy" else "unhealthy"),
            ("health_check", "error")]) := rfl
      rw [hres]
      generalize (initialized && glossarySome) = A
      generalize ((!(key == "")) && decide (10 < key.length)) = B
      refine ⟨?_, Or.inr (Or.inr rfl), fun h => ?_, fun _ => ⟨rfl, ?_⟩⟩
      · revert A B
        decide
      · exfalso
        rcases h with h | ⟨h1, -, -⟩
        · exact absurd h (by simp)
        · exact h1 rfl
      · revert A B
        decide
    | some mem =>
      cases co with
      | none =>
        have hres : check_system_health ⟨true, some mem, none, d, ko, key⟩
            m initialized glossarySome now
          = ("error",
            [("glossary",
                if initialized && glossarySome then "healthy" else "unhealthy"),
              ("openai_api",
                if (!(key == "")) && decide (10 < key.length)
                then "healthy" else "unhealthy"),
              ("memory",
                if decide (mem < memory_usage_threshold) then "healthy" else "warning"),
              ("health_check", "error")]) := rfl
        rw [hres]
        generalize (initialized && glossarySome) = A
        generalize ((!(key == "")) && decide (10 < key.length)) = B
        generalize (decide (mem < memory_usage_threshold)) = C
        refine ⟨?_, Or.inr (Or.inr rfl), fun h => ?_, fun _ => ⟨rfl, ?_⟩⟩
        · revert A B C
          decide
        · exfalso
          rcases h with h | ⟨-, h2, -⟩
          · exact absurd h (by simp)
          · exact h2 rfl
        · revert A B C
          decide
      | some cpu =>
        cases d with
        | false =>
          have hres : check_system_health ⟨true, some mem, some cpu, false, ko, key⟩
              m initialized glossarySome now
            = (if ((!(initialized && glossarySome))
                    || (!((!(key == "")) && decide (10 < key.length))))
                  || ((!(decide (mem < memory_usage_threshold)))
                      || (!(decide (cpu < cpu_usage_threshold))))
                  || (!(decide (get_error_rate m now 5 < error_rate_threshold)))
                  || ((!(decide (get_avg_response_time m now 5 < response_time_threshold)))
                      && decide (0 < get_avg_response_time m now 5))
                then "degraded" else "healthy",
              [("glossary",
                  if initialized && glossarySome then "healthy" else "unhealthy"),
                ("openai_api",
                  if (!(key == "")) && decide (10 < key.length)
                  then "healthy" else "unhealthy"),
                ("memory",
                  if decide (mem < memory_usage_threshold) then "healthy" else "warning"),
                ("cpu",
                  if decide (cpu < cpu_usage_threshold) then "healthy" else "warning"),
                ("error_rate",
                  if decide (get_error_rate m now 5 < error_rate_threshold)
                  then "healthy" else "warning"),
                ("response_time",
                  if decide (get_avg_response_time m now 5 < response_time_threshold)
                  then "healthy" else "warning")]) := rfl
          rw [hres, hz (get_avg_response_time m now 5)]
          generalize (initialized && glossarySome) = A
          generalize ((!(key == "")) && decide (10 < key.length)) = B
          generalize (decide (mem < memory_usage_threshold)) = C
          generalize (decide (cpu < cpu_usage_threshold)) = D
          generalize (decide (get_error_rate m now 5 < error_rate_threshold)) = E
          generalize (decide (get_avg_response_time m now 5 < response_time_threshold)) = R
          refine ⟨?_, ?_, fun _ => ?_, fun h => ?_⟩
          · revert A B C D E R
            decide
          · revert A B C D E R
            decide
          · revert A B C D E R
            decide
          · exfalso
            rcases h with ⟨-, h2 | h2 | ⟨h3, -⟩⟩
            · exact absurd h2 (by simp)
            · exact absurd h2 (by simp)
            · exact absurd h3 (by simp)
        | true =>
          cases ko with
          | none =>
            have hres : check_system_health ⟨true, some mem, some cpu, true, none, key⟩
                m initialized glossarySome now
              = ("error",
                [("glossary",
                    if initialized && glossarySome then "healthy" else "unhealthy"),
                  ("openai_api",
                    if (!(key == "")) && decide (10 < key.length)
                    then "healthy" else "unhealthy"),
                  ("memory",
                    if decide (mem < memory_usage_threshold)
                    then "healthy" else "warning"),
                  ("cpu",
                    if decide (cpu < cpu_usage_threshold) then "healthy" else "warning"),
                  ("health_check", "error")]) := rfl
            rw [hres]
            generalize (initialized && glossarySome) = A
            generalize ((!(key == "")) && decide (10 < key.length)) = B
            generalize (decide (mem < memory_usage_threshold)) = C
            generalize (decide (cpu < cpu_usage_threshold)) = D
            refine ⟨?_, Or.inr (Or.inr rfl), fun h => ?_, fun _ => ⟨rfl, ?_⟩⟩
            · revert A B C D
              decide
            · exfalso
              rcases h with h | ⟨-, -, h3 | h3⟩
              · exact absurd h (by simp)
              · exact absurd h3 (by simp)
              · exact h3 rfl
            · revert A B C D
              decide
          | some disk =>
            have hres : check_system_health
                ⟨true, some mem, some cpu, true, some disk, key⟩
                m initialized glossarySome now
              = (if ((!(initialized && glossarySome))
                      || (!((!(key == "")) && decide (10 < key.length))))
                    || ((!(decide (mem < memory_usage_threshold)))
                        || (!(decide (cpu < cpu_usage_threshold)))
                        || (!(decide (disk < disk_usage_threshold))))
                    || (!(decide (get_error_rate m now 5 < error_rate_threshold)))
                    || ((!(decide (get_avg_response_time m now 5 < response_time_threshold)))
                        && decide (0 < get_avg_response_time m now 5))
                  then "degraded" else "healthy",
                [("glossary",
                    if initialized && glossarySome then "healthy" else "unhealthy"),
                  ("openai_api",
                    if (!(key == "")) && decide (10 < key.length)
                    then "healthy" else "unhealthy"),
                  ("memory",
                    if decide (mem < memory_usage_threshold)
                    then "healthy" else "warning"),
                  ("cpu",
                    if decide (cpu < cpu_usage_threshold) then "healthy" else "warning"),
                  ("disk",
                    if decide (disk < disk_usage_threshold) then "healthy" else "warning"),
                  ("error_rate",
                    if decide (get_error_rate m now 5 < error_rate_threshold)
                    then "healthy" else "warning"),
                  ("response_time",
                    if decide (get_avg_response_time m now 5 < response_time_threshold)
                    then "healthy" else "warning")]) := rfl
            rw [hres, hz (get_avg_response_time m now 5)]
            generalize (initialized && glossarySome) = A
            generalize ((!(key == "")) && decide (10 < key.length)) = B
            generalize (decide (mem < memory_usage_threshold)) = C
            generalize (decide (cpu < cpu_usage_threshold)) = D
            generalize (decide (disk < disk_usage_threshold)) = K
            generalize (decide (get_error_rate m now 5 < error_rate_threshold)) = E
            generalize (decide (get_avg_response_time m now 5 < response_time_threshold)) = R
            refine ⟨?_, ?_, fun _ => ?_, fun h => ?_⟩
            · revert A B C D K E R
              decide
            · revert A B C D K E R
              decide
            · revert A B C D K E R
              decide
            · exfalso
              rcases h with ⟨-, h2 | h2 | ⟨-, h2⟩⟩
              · exact absurd h2 (by simp)
              · exact absurd h2 (by simp)
              · exact absurd h2 (by simp)

/-- C7 witness: the amended theorem applied at the psutil-less environment of
the counterexample (no probe raises, so the healthy-iff equivalence holds)
and at an environment whose memory probe raises at runtime (overall status
`error` with a `health_check` error check). -/
theorem health_aggregate_amended_witness :
    ((check_system_health cexHealthEnv ⟨[], []⟩ true true 0).1 = "healthy"
      ↔ ∀ c ∈ (check_system_health cexHealthEnv ⟨[], []⟩ true true 0).2,
          c.2 = "healthy" ∨ c.2 = "unknown")
    ∧ ((check_system_health raisingHealthEnv ⟨[], []⟩ true true 0).1 = "error"
      ∧ ("health_check", "error")
          ∈ (check_system_health raisingHealthEnv ⟨[], []⟩ true true 0).2) := by
  constructor
  · exact (health_aggregate_amended cexHealthEnv ⟨[], []⟩ true true 0).2.2.1
      (Or.inl rfl)
  · exact (health_aggregate_amended raisingHealthEnv ⟨[], []⟩ true true 0).2.2.2
      ⟨rfl, Or.inl rfl⟩

end FoodLang
